import Mathlib

/-!
# MatchTrackerPWA — verification of the match state machine and score engine

Shallow embedding of the core logic of `script.js` (Gaelic games match
tracker): enumerations, the match data model, the period state machine,
the clock operations, event recording/editing, and the score/statistics
derivation functions.  Each definition is translated directly from the
JavaScript source; DOM reads are replaced by explicit parameters and the
module-level modal state is threaded explicitly.
-/

namespace MatchTracker

/-- The `MatchPeriod` enumeration (script.js lines 14-24). -/
inductive MatchPeriod where
  | notStarted
  | firstHalf
  | halfTime
  | secondHalf
  | fullTime
  | extraFirst
  | extraHalf
  | extraSecond
  | matchOver
deriving DecidableEq, Repr

/-- The `EventType` enumeration (script.js lines 26-38). -/
inductive EventType where
  | shot
  | substitution
  | kickout
  | card
  | foulConceded
  | note
deriving DecidableEq, Repr

/-- The `ShotOutcome` enumeration (script.js lines 40-48). -/
inductive ShotOutcome where
  | goal
  | point
  | twoPointer
  | wide
  | saved
  | droppedShort
  | offPost
deriving DecidableEq, Repr

/-- The `ShotType` enumeration (script.js lines 94-102). -/
inductive ShotType where
  | fromPlay
  | free
  | penalty
  | fortyFive
  | sixtyFive
  | sideline
  | mark
deriving DecidableEq, Repr

/-- The `CardType` enumeration (script.js lines 104-108). -/
inductive CardType where
  | yellow
  | red
  | black
deriving DecidableEq, Repr

/-- The `FoulOutcome` enumeration (script.js lines 110-113). -/
inductive FoulOutcome where
  | free
  | penalty
deriving DecidableEq, Repr

/-- Match types.  The source stores them as the form strings
`football`, `ladies_football`, `hurling`, `camogie`; we model them as an
enumeration, `ladiesFootball` standing for the string `ladies_football`. -/
inductive MatchType where
  | football
  | ladiesFootball
  | hurling
  | camogie
deriving DecidableEq, Repr

/-- The two team slots of a match (`'team1'` / `'team2'` keys). -/
inductive TeamKey where
  | team1
  | team2
deriving DecidableEq, Repr

/-- Player record (`generatePlayers`, script.js lines 2517-2529). -/
structure Player where
  id : String
  name : String
  jerseyNumber : Nat
  position : String
deriving DecidableEq, Repr

/-- Event record.  Every event constructor in the program fills exactly the
thirteen keys `id .. noteText` (see e.g. `quickAddShot`, script.js lines
3608-3622); optional keys are `null` when unused, modelled as `none`.
The two final fields `playerId` and `outcome` are keys that are *read* by
`StatsCalculator.calculatePlayerStats` (script.js lines 938, 944) but are
never assigned by any event creation or edit path in the program, so on
every event the program builds they are absent (`undefined`, modelled as
`none`). -/
structure Event where
  id : String
  type : EventType
  period : MatchPeriod
  timeElapsed : Int
  teamId : Option String
  player1Id : Option String
  player2Id : Option String
  shotOutcome : Option ShotOutcome
  shotType : Option ShotType
  foulOutcome : Option FoulOutcome
  cardType : Option CardType
  wonKickout : Option Bool
  noteText : Option String
  playerId : Option String := none
  outcome : Option ShotOutcome := none
deriving DecidableEq, Repr

/-- Team sub-entity of a match. -/
structure Team where
  id : String
  name : String
  players : List Player
deriving DecidableEq, Repr

/-- Match aggregate (created in `handleMatchFormSubmit`, script.js lines
2896-2924).  `extraHalfLength` is `Option Int` because older matches may
lack the field (`undefined`/`null`, i.e. `none`). -/
structure Match where
  id : String
  competition : String
  dateTime : String
  venue : String
  referee : String
  matchType : MatchType
  halfLength : Int
  extraHalfLength : Option Int
  team1 : Team
  team2 : Team
  events : List Event
  currentPeriod : MatchPeriod
  elapsedTime : Int
  isPaused : Bool
  periodStartTimestamp : Option Int
deriving DecidableEq, Repr

/-- Lookup `match[teamKey]`. -/
def Match.team (m : Match) : TeamKey → Team
  | .team1 => m.team1
  | .team2 => m.team2

/-- The `isPlayingPeriod` (script.js lines 60-67). -/
def isPlayingPeriod (period : MatchPeriod) : Bool :=
  period = MatchPeriod.firstHalf ∨
  period = MatchPeriod.secondHalf ∨
  period = MatchPeriod.extraFirst ∨
  period = MatchPeriod.extraSecond

/-- Result of `computeTeamScore`. -/
structure Score where
  goals : Nat
  points : Nat
  total : Nat
deriving DecidableEq, Repr

/-- The per-event body of the `forEach` loop in `computeTeamScore`
(script.js lines 2615-2621), acting on the mutable `(goals, points)`
pair; `tid` is `match[teamKey].id`. -/
def scoreStep (tid : String) (acc : Nat × Nat) (event : Event) : Nat × Nat :=
  if event.type = EventType.shot ∧ event.teamId = some tid then
    if event.shotOutcome = some ShotOutcome.goal then (acc.1 + 1, acc.2)
    else if event.shotOutcome = some ShotOutcome.point then (acc.1, acc.2 + 1)
    else if event.shotOutcome = some ShotOutcome.twoPointer then (acc.1, acc.2 + 2)
    else acc
  else acc

/-- The `computeTeamScore` (script.js lines 2612-2624): running fold of the
event log; `goal` adds a goal, `point` adds a point, `twoPointer` adds two
points; `total = goals*3 + points`. -/
def computeTeamScore (m : Match) (teamKey : TeamKey) : Score :=
  let gp := m.events.foldl (scoreStep (m.team teamKey).id) (0, 0)
  { goals := gp.1, points := gp.2, total := gp.1 * 3 + gp.2 }

/-- The fixed period order array of `getNextPeriod` (script.js lines
2645-2655). -/
def periodOrder : List MatchPeriod :=
  [MatchPeriod.notStarted, MatchPeriod.firstHalf, MatchPeriod.halfTime,
   MatchPeriod.secondHalf, MatchPeriod.fullTime, MatchPeriod.extraFirst,
   MatchPeriod.extraHalf, MatchPeriod.extraSecond, MatchPeriod.matchOver]

/-- Value of `order.indexOf(current)` over `periodOrder`. -/
def periodIndex : MatchPeriod → Nat
  | .notStarted => 0
  | .firstHalf => 1
  | .halfTime => 2
  | .secondHalf => 3
  | .fullTime => 4
  | .extraFirst => 5
  | .extraHalf => 6
  | .extraSecond => 7
  | .matchOver => 8

/-- JS truthiness test `!match.extraHalfLength || match.extraHalfLength <= 0`
used by `getNextPeriod` (script.js line 2662): the extra-time skip fires when
the field is absent (`none`), `0` (falsy) or non-positive. -/
def noExtraTime : Option Int → Bool
  | none => true
  | some n => n ≤ 0

/-- The `getNextPeriod` (script.js lines 2644-2667).  The source receives the
whole `match` and reads only `match.extraHalfLength`; we pass that field
directly. -/
def getNextPeriod (current : MatchPeriod) (extraHalfLength : Option Int) : MatchPeriod :=
  let idx := periodOrder.indexOf current
  if idx ≥ periodOrder.length - 1 then MatchPeriod.matchOver
  else
    let next := periodOrder.getD (idx + 1) MatchPeriod.matchOver
    if (next = MatchPeriod.extraFirst ∨ next = MatchPeriod.extraHalf ∨
        next = MatchPeriod.extraSecond) ∧ noExtraTime extraHalfLength then
      MatchPeriod.matchOver
    else next

/-- JS truthiness test `!match.extraHalfLength || match.extraHalfLength === 0`
used by the `startMatch` guard (script.js line 5177). -/
def extraUnconfiguredForStart : Option Int → Bool
  | none => true
  | some n => n = 0

/-- The `startMatch` (script.js lines 5169-5208): refuse from `FULL_TIME`
without extra time and from `MATCH_OVER`; otherwise enter the next period
to start, unpause, and anchor the clock at `now - elapsedTime*1000`.
`Date.now()` is passed as the `now` argument; the interval bookkeeping and
UI refresh calls are outside the model. -/
def startMatch (m : Match) (now : Int) : Match :=
  if m.currentPeriod = MatchPeriod.fullTime ∧ extraUnconfiguredForStart m.extraHalfLength then m
  else if m.currentPeriod = MatchPeriod.matchOver then m
  else
    let next :=
      if m.currentPeriod = MatchPeriod.notStarted then MatchPeriod.firstHalf
      else if m.currentPeriod = MatchPeriod.halfTime then MatchPeriod.secondHalf
      else if m.currentPeriod = MatchPeriod.fullTime then
        if ¬ noExtraTime m.extraHalfLength then MatchPeriod.extraFirst else m.currentPeriod
      else if m.currentPeriod = MatchPeriod.extraHalf then MatchPeriod.extraSecond
      else m.currentPeriod
    { m with currentPeriod := next, isPaused := false,
             periodStartTimestamp := some (now - m.elapsedTime * 1000) }

/-- The `pauseMatch` (script.js lines 5211-5220): freeze
`elapsedTime = Math.floor((now - periodStartTimestamp)/1000)`.  A `null`
timestamp coerces to `0` in the JS subtraction, hence `getD 0`. -/
def pauseMatch (m : Match) (now : Int) : Match :=
  { m with isPaused := true,
           elapsedTime := (now - m.periodStartTimestamp.getD 0).fdiv 1000 }

/-- The `resumeMatch` (script.js lines 5223-5231): re-anchor the clock at
`now - elapsedTime*1000` and unpause. -/
def resumeMatch (m : Match) (now : Int) : Match :=
  { m with isPaused := false,
           periodStartTimestamp := some (now - m.elapsedTime * 1000) }

/-- The `elapsedTime` finalization step at the top of `endPeriod`
(script.js lines 5239-5241): while running, recompute from the wall clock;
while paused, keep the stored snapshot. -/
def finalizeElapsed (m : Match) (now : Int) : Int :=
  if m.isPaused then m.elapsedTime
  else (now - m.periodStartTimestamp.getD 0).fdiv 1000

/-- The `endPeriod` (script.js lines 5234-5264): finalize `elapsedTime`, pause,
advance via `getNextPeriod`, reset `elapsedTime` to 0 unless the match is
over, and auto-start the second half of regulation or extra time. -/
def endPeriod (m : Match) (now : Int) : Match :=
  let m1 := { m with elapsedTime := finalizeElapsed m now, isPaused := true,
                     currentPeriod := getNextPeriod m.currentPeriod m.extraHalfLength }
  let m2 :=
    if m1.currentPeriod ≠ MatchPeriod.matchOver then { m1 with elapsedTime := 0 } else m1
  if m2.currentPeriod = MatchPeriod.secondHalf ∨ m2.currentPeriod = MatchPeriod.extraSecond then
    { m2 with isPaused := false, periodStartTimestamp := some now }
  else m2

/-- The `quickAddShot` (script.js lines 3597-3629): guarded by
`isPlayingPeriod`; appends a from-play shot event stamped with the current
period and elapsed time.  `generateId()` is passed in as `freshId`. -/
def quickAddShot (m : Match) (teamKey : TeamKey) (outcome : ShotOutcome)
    (freshId : String) : Match :=
  if ¬ isPlayingPeriod m.currentPeriod then m
  else
    let event : Event :=
      { id := freshId, type := EventType.shot, period := m.currentPeriod,
        timeElapsed := m.elapsedTime, teamId := some (m.team teamKey).id,
        player1Id := none, player2Id := none, shotOutcome := some outcome,
        shotType := some ShotType.fromPlay, foulOutcome := none,
        cardType := none, wonKickout := none, noteText := none }
    { m with events := m.events ++ [event] }

/-- Values read from the generic add-event form fields (`addEvent`,
script.js lines 5610-5666); one record per `document.getElementById(...)`
read. -/
structure AddEventForm where
  eventType : EventType
  teamId : String
  playerId : Option String
  shotType : Option ShotType
  shotOutcome : Option ShotOutcome
  cardType : Option CardType
  foulOutcome : Option FoulOutcome
  kickoutWon : Bool
  player1 : String
  player2 : String
  noteText : String
deriving DecidableEq, Repr

/-- The `addEvent` (script.js lines 5603-5680): guarded by `isPlayingPeriod`;
builds a blank event stamped with the current period/time and fills the
type-specific fields from the form. -/
def addEvent (m : Match) (form : AddEventForm) (freshId : String) : Match :=
  if ¬ isPlayingPeriod m.currentPeriod then m
  -- the NOTE branch alerts and returns without pushing when the trimmed
  -- note text is empty (script.js lines 5667-5671)
  else if form.eventType = EventType.note ∧ form.noteText.trim = "" then m
  else
    let base : Event :=
      { id := freshId, type := form.eventType, period := m.currentPeriod,
        timeElapsed := m.elapsedTime, teamId := none, player1Id := none,
        player2Id := none, shotOutcome := none, shotType := none,
        foulOutcome := none, cardType := none, wonKickout := none,
        noteText := none }
    let event :=
      if form.eventType = EventType.shot then
        { base with teamId := some form.teamId, player1Id := form.playerId,
                    shotType := form.shotType, shotOutcome := form.shotOutcome }
      else if form.eventType = EventType.card then
        { base with teamId := some form.teamId, player1Id := form.playerId,
                    cardType := form.cardType }
      else if form.eventType = EventType.foulConceded then
        { base with teamId := some form.teamId, player1Id := form.playerId,
                    foulOutcome := form.foulOutcome }
      else if form.eventType = EventType.kickout then
        { base with teamId := some form.teamId, wonKickout := some form.kickoutWon }
      else if form.eventType = EventType.substitution then
        { base with teamId := some form.teamId, player1Id := some form.player1,
                    player2Id := some form.player2 }
      else if form.eventType = EventType.note then
        { base with noteText := some form.noteText.trim }
      else base
    { m with events := m.events ++ [event] }

/-- The `scoreModalData` shape (script.js lines 3653-3660). -/
structure ScoreModalData where
  teamKey : TeamKey
  outcome : ShotOutcome
  selectedShotType : ShotType
  selectedPlayerId : Option String
  isEdit : Bool
  eventId : Option String
deriving DecidableEq, Repr

/-- Initial data handed to a modal opener (`initial` parameter of the
`show*Modal` functions). -/
structure ModalInitial where
  isEdit : Bool := false
  eventId : Option String := none
deriving DecidableEq, Repr

/-- The `showScoreModal` (script.js lines 3643-3660), modelled up to the point
where `scoreModalData` is assigned: a non-edit open is refused (the module
variable keeps its prior value, `none` whenever no modal is open) unless
the match is in a playing period. -/
def showScoreModal (m : Match) (teamKey : TeamKey) (outcome : ShotOutcome)
    (shotType : ShotType) (playerId : Option String) (initial : ModalInitial) :
    Option ScoreModalData :=
  if ¬ initial.isEdit ∧ ¬ isPlayingPeriod m.currentPeriod then none
  else some { teamKey := teamKey, outcome := outcome, selectedShotType := shotType,
              selectedPlayerId := playerId, isEdit := initial.isEdit,
              eventId := initial.eventId }

/-- In-place payload update of the first event with the given id, as
performed by `match.events.find(...)` followed by field assignment. -/
def updateFirstEvent (events : List Event) (eventId : String)
    (f : Event → Event) : List Event :=
  match events with
  | [] => []
  | e :: rest =>
    if e.id = eventId then f e :: rest
    else e :: updateFirstEvent rest eventId f

/-- The `saveScoreEvent` (script.js lines 3933-3981): with no modal data,
return unchanged; in edit mode update the payload fields of the existing
event; otherwise append a freshly stamped shot event. -/
def saveScoreEvent (m : Match) (data : Option ScoreModalData)
    (noteText : Option String) (freshId : String) : Match :=
  match data with
  | none => m
  | some d =>
    if d.isEdit ∧ d.eventId.isSome then
      let edited := updateFirstEvent m.events (d.eventId.getD "") fun ev =>
        { ev with teamId := some (m.team d.teamKey).id,
                  player1Id := d.selectedPlayerId,
                  shotOutcome := some d.outcome,
                  shotType := some d.selectedShotType,
                  noteText := noteText }
      { m with events := edited }
    else
      let event : Event :=
        { id := freshId, type := EventType.shot, period := m.currentPeriod,
          timeElapsed := m.elapsedTime, teamId := some (m.team d.teamKey).id,
          player1Id := d.selectedPlayerId, player2Id := none,
          shotOutcome := some d.outcome, shotType := some d.selectedShotType,
          foulOutcome := none, cardType := none, wonKickout := none,
          noteText := noteText }
      { m with events := m.events ++ [event] }

/-- The user-invocable score recording flow: open the score modal (guard at
script.js line 3647) and save.  Outside a modal, the module-level
`scoreModalData` is `null`, so a refused open leaves `none` for the save
step. -/
def scoreModalFlow (m : Match) (teamKey : TeamKey) (outcome : ShotOutcome)
    (shotType : ShotType) (playerId : Option String) (noteText : Option String)
    (freshId : String) : Match :=
  saveScoreEvent m (showScoreModal m teamKey outcome shotType playerId {}) noteText freshId

/-- The `foulModalData` shape (script.js lines 3997-4004). -/
structure FoulModalData where
  teamKey : TeamKey
  selectedFoulType : FoulOutcome
  selectedCardType : Option CardType
  selectedPlayerId : Option String
  isEdit : Bool
  eventId : Option String
deriving DecidableEq, Repr

/-- The `showFoulModal` (script.js lines 3987-4004): same non-edit playing
period guard as the score modal.  `selectedCardType` models the
`'none'`-vs-card select value as an `Option`. -/
def showFoulModal (m : Match) (teamKey : TeamKey) (foulType : FoulOutcome)
    (cardType : Option CardType) (playerId : Option String)
    (initial : ModalInitial) : Option FoulModalData :=
  if ¬ initial.isEdit ∧ ¬ isPlayingPeriod m.currentPeriod then none
  else some { teamKey := teamKey, selectedFoulType := foulType,
              selectedCardType := cardType, selectedPlayerId := playerId,
              isEdit := initial.isEdit, eventId := initial.eventId }

/-- The `saveFoulEvent` (script.js lines 4168-4221). -/
def saveFoulEvent (m : Match) (data : Option FoulModalData)
    (noteText : Option String) (freshId : String) : Match :=
  match data with
  | none => m
  | some d =>
    if d.isEdit ∧ d.eventId.isSome then
      let edited := updateFirstEvent m.events (d.eventId.getD "") fun ev =>
        { ev with teamId := some (m.team d.teamKey).id,
                  player1Id := d.selectedPlayerId,
                  foulOutcome := some d.selectedFoulType,
                  cardType := d.selectedCardType,
                  noteText := noteText }
      { m with events := edited }
    else
      let event : Event :=
        { id := freshId, type := EventType.foulConceded, period := m.currentPeriod,
          timeElapsed := m.elapsedTime, teamId := some (m.team d.teamKey).id,
          player1Id := d.selectedPlayerId, player2Id := none,
          shotOutcome := none, shotType := none,
          foulOutcome := some d.selectedFoulType, cardType := d.selectedCardType,
          wonKickout := none, noteText := noteText }
      { m with events := m.events ++ [event] }

/-- The user-invocable foul recording flow (open guarded at script.js line
3992, then save). -/
def foulModalFlow (m : Match) (teamKey : TeamKey) (foulType : FoulOutcome)
    (cardType : Option CardType) (playerId : Option String)
    (noteText : Option String) (freshId : String) : Match :=
  saveFoulEvent m (showFoulModal m teamKey foulType cardType playerId {}) noteText freshId

/-- The `kickoutModalData` shape (script.js lines 4235-4241); `selectedOutcome`
is the string `'won'` or `'lost'`, modelled as a `Bool` for `'won'`. -/
structure KickoutModalData where
  teamKey : TeamKey
  selectedOutcomeWon : Bool
  selectedPlayerId : Option String
  isEdit : Bool
  eventId : Option String
deriving DecidableEq, Repr

/-- The `showKickoutModal` (script.js lines 4225-4241): same non-edit playing
period guard. -/
def showKickoutModal (m : Match) (teamKey : TeamKey) (outcomeWon : Bool)
    (playerId : Option String) (initial : ModalInitial) : Option KickoutModalData :=
  if ¬ initial.isEdit ∧ ¬ isPlayingPeriod m.currentPeriod then none
  else some { teamKey := teamKey, selectedOutcomeWon := outcomeWon,
              selectedPlayerId := playerId, isEdit := initial.isEdit,
              eventId := initial.eventId }

/-- The `saveKickoutEvent` (script.js lines 4386-4436). -/
def saveKickoutEvent (m : Match) (data : Option KickoutModalData)
    (noteText : Option String) (freshId : String) : Match :=
  match data with
  | none => m
  | some d =>
    if d.isEdit ∧ d.eventId.isSome then
      let edited := updateFirstEvent m.events (d.eventId.getD "") fun ev =>
        { ev with teamId := some (m.team d.teamKey).id,
                  player1Id := d.selectedPlayerId,
                  wonKickout := some d.selectedOutcomeWon,
                  noteText := noteText }
      { m with events := edited }
    else
      let event : Event :=
        { id := freshId, type := EventType.kickout, period := m.currentPeriod,
          timeElapsed := m.elapsedTime, teamId := some (m.team d.teamKey).id,
          player1Id := d.selectedPlayerId, player2Id := none,
          shotOutcome := none, shotType := none, foulOutcome := none,
          cardType := none, wonKickout := some d.selectedOutcomeWon,
          noteText := noteText }
      { m with events := m.events ++ [event] }

/-- The user-invocable kickout recording flow (open guarded at script.js
line 4230, then save). -/
def kickoutModalFlow (m : Match) (teamKey : TeamKey) (outcomeWon : Bool)
    (playerId : Option String) (noteText : Option String) (freshId : String) : Match :=
  saveKickoutEvent m (showKickoutModal m teamKey outcomeWon playerId {}) noteText freshId

/-- The `substitutionModalData` shape (script.js lines 4452-4458). -/
structure SubstitutionModalData where
  teamKey : TeamKey
  selectedPlayerOffId : Option String
  selectedPlayerOnId : Option String
  isEdit : Bool
  eventId : Option String
deriving DecidableEq, Repr

/-- The `showSubstitutionModal` (script.js lines 4442-4458): same non-edit
playing period guard. -/
def showSubstitutionModal (m : Match) (teamKey : TeamKey)
    (playerOffId playerOnId : Option String) (initial : ModalInitial) :
    Option SubstitutionModalData :=
  if ¬ initial.isEdit ∧ ¬ isPlayingPeriod m.currentPeriod then none
  else some { teamKey := teamKey, selectedPlayerOffId := playerOffId,
              selectedPlayerOnId := playerOnId, isEdit := initial.isEdit,
              eventId := initial.eventId }

/-- The `saveSubstitutionEvent` (script.js lines 4641-4691). -/
def saveSubstitutionEvent (m : Match) (data : Option SubstitutionModalData)
    (noteText : Option String) (freshId : String) : Match :=
  match data with
  | none => m
  | some d =>
    if d.isEdit ∧ d.eventId.isSome then
      let edited := updateFirstEvent m.events (d.eventId.getD "") fun ev =>
        { ev with teamId := some (m.team d.teamKey).id,
                  player1Id := d.selectedPlayerOffId,
                  player2Id := d.selectedPlayerOnId,
                  noteText := noteText }
      { m with events := edited }
    else
      let event : Event :=
        { id := freshId, type := EventType.substitution, period := m.currentPeriod,
          timeElapsed := m.elapsedTime, teamId := some (m.team d.teamKey).id,
          player1Id := d.selectedPlayerOffId, player2Id := d.selectedPlayerOnId,
          shotOutcome := none, shotType := none, foulOutcome := none,
          cardType := none, wonKickout := none, noteText := noteText }
      { m with events := m.events ++ [event] }

/-- The user-invocable substitution recording flow (open guarded at
script.js line 4447, then save). -/
def substitutionModalFlow (m : Match) (teamKey : TeamKey)
    (playerOffId playerOnId : Option String) (noteText : Option String)
    (freshId : String) : Match :=
  saveSubstitutionEvent m (showSubstitutionModal m teamKey playerOffId playerOnId {})
    noteText freshId

/-- The `noteModalData` shape (script.js lines 4702-4707). -/
structure NoteModalData where
  teamKey : TeamKey
  noteText : String
  isEdit : Bool
  eventId : Option String
deriving DecidableEq, Repr

/-- The `showNoteModal` (script.js lines 4697-4730): the note modal opener has
*no* playing-period guard of its own; data is always prepared. -/
def showNoteModal (teamKey : TeamKey) (noteText : String)
    (initial : ModalInitial) : Option NoteModalData :=
  some { teamKey := teamKey, noteText := noteText, isEdit := initial.isEdit,
         eventId := initial.eventId }

/-- The `saveNoteEvent` (script.js lines 4737-4791): empty trimmed note text is
not saved; edit mode updates `teamId` and `noteText` only. -/
def saveNoteEvent (m : Match) (data : Option NoteModalData)
    (noteText : String) (freshId : String) : Match :=
  match data with
  | none => m
  | some d =>
    if noteText.trim = "" then m
    else if d.isEdit ∧ d.eventId.isSome then
      let edited := updateFirstEvent m.events (d.eventId.getD "") fun ev =>
        { ev with teamId := some (m.team d.teamKey).id,
                  noteText := some noteText.trim }
      { m with events := edited }
    else
      let event : Event :=
        { id := freshId, type := EventType.note, period := m.currentPeriod,
          timeElapsed := m.elapsedTime, teamId := some (m.team d.teamKey).id,
          player1Id := none, player2Id := none, shotOutcome := none,
          shotType := none, foulOutcome := none, cardType := none,
          wonKickout := none, noteText := some noteText.trim }
      { m with events := m.events ++ [event] }

/-- The `showEventTypeModal` (script.js lines 3482-3509) up to the playing
period guard: the grid of event-type buttons (which lead to the foul,
kickout, substitution and note modals) only opens during a playing
period. -/
def showEventTypeModal (m : Match) (teamKey : TeamKey) : Option TeamKey :=
  if ¬ isPlayingPeriod m.currentPeriod then none else some teamKey

/-- The user-invocable note recording flow: the note modal is reached
through the event-type modal (script.js line 6567), whose opener carries
the playing-period guard; `showNoteModal` itself has none. -/
def noteModalFlow (m : Match) (teamKey : TeamKey) (noteText : String)
    (freshId : String) : Match :=
  match showEventTypeModal m teamKey with
  | none => m
  | some tk => saveNoteEvent m (showNoteModal tk "" {}) noteText freshId

/-- Values read from the edit-event modal fields (`saveEditedEvent`,
script.js lines 6279-6318), one per `document.getElementById(...).value`
read; the `|| null` coalescing on player selects is modelled by
`Option`. -/
structure EditForm where
  teamId : String
  playerId : Option String
  shotType : ShotType
  shotOutcome : ShotOutcome
  cardType : CardType
  foulOutcome : FoulOutcome
  kickoutWonValue : String
  playerOut : String
  playerIn : String
  noteText : String
deriving DecidableEq, Repr

/-- The per-type field assignments of `saveEditedEvent` (script.js lines
6280-6318): only payload fields are written, switched on the (unchanged)
event type. -/
def applyEditForm (f : EditForm) (ev : Event) : Event :=
  if ev.type = EventType.shot then
    { ev with teamId := some f.teamId, player1Id := f.playerId,
              shotType := some f.shotType, shotOutcome := some f.shotOutcome }
  else if ev.type = EventType.card then
    { ev with teamId := some f.teamId, player1Id := f.playerId,
              cardType := some f.cardType }
  else if ev.type = EventType.foulConceded then
    { ev with teamId := some f.teamId, player1Id := f.playerId,
              foulOutcome := some f.foulOutcome }
  else if ev.type = EventType.kickout then
    { ev with teamId := some f.teamId,
              wonKickout := some (f.kickoutWonValue = "won") }
  else if ev.type = EventType.substitution then
    { ev with teamId := some f.teamId, player1Id := some f.playerOut,
              player2Id := some f.playerIn }
  else
    { ev with noteText := some f.noteText.trim }

/-- The `saveEditedEvent` (script.js lines 6272-6332): look up the event being
edited by `appState.editingEventId`; if absent, return unchanged,
otherwise update its payload fields in place. -/
def saveEditedEvent (m : Match) (editingEventId : Option String)
    (f : EditForm) : Match :=
  match editingEventId with
  | none => m
  | some eid =>
    if (m.events.find? (fun e => e.id = eid)).isSome then
      { m with events := updateFirstEvent m.events eid (applyEditForm f) }
    else m

/-- Score bucket record consumed by `formatScoreDisplay` (the
`{goals, points, twoPointers}` totals built in `calculatePlayerScorers`,
script.js line 1228). -/
structure ScoreBuckets where
  goals : Nat
  points : Nat
  twoPointers : Nat
deriving DecidableEq, Repr

/-- Behaviour of `String.padStart(2, '0')` on a decimal numeral. -/
def padStart2 (s : String) : String :=
  if 2 ≤ s.length then s
  else if s.length = 1 then "0" ++ s
  else "00"

/-- The `formatScoreDisplay` (script.js lines 1417-1425): for football-family
match types the displayed point count is `score.points +
(score.twoPointers || 0)`; otherwise just `score.points`. -/
def formatScoreDisplay (score : ScoreBuckets) (isFootball : Bool) : String :=
  if isFootball then
    let totalPoints := score.points + score.twoPointers
    toString score.goals ++ "-" ++ padStart2 (toString totalPoints)
  else
    toString score.goals ++ "-" ++ padStart2 (toString score.points)

/-- Whether the match type is in the football family, i.e. the test
`match.matchType === 'football' || match.matchType === 'ladies_football'`
(script.js lines 878, 897). -/
def isFootballFamily (t : MatchType) : Bool :=
  t = MatchType.football ∨ t = MatchType.ladiesFootball

/-- The score portion of the record returned by
`StatsCalculator.calculateTeamStats` (script.js lines 855-900): bucketed
counts of the team's shot events, the match-type-gated total, and the
display string. -/
structure TeamStatsScore where
  goals : Nat
  points : Nat
  twoPointers : Nat
  total : Nat
  display : String
deriving DecidableEq, Repr

/-- The `StatsCalculator.calculateTeamStats` (script.js lines 855-900),
restricted to the `score` field of its result: filter the team's events,
count goal / point / two-pointer shots separately, gate the two-pointer
multiplier on the football-family match types, and format the display
string with `points + twoPointers*2` folded in for those types. -/
def calculateTeamStatsScore (m : Match) (teamKey : TeamKey) : TeamStatsScore :=
  let teamEvents := m.events.filter (fun e => e.teamId = some (m.team teamKey).id)
  let shots := teamEvents.filter (fun e => e.type = EventType.shot)
  let goals := (shots.filter (fun s => s.shotOutcome = some ShotOutcome.goal)).length
  let points := (shots.filter (fun s => s.shotOutcome = some ShotOutcome.point)).length
  let twoPointers := (shots.filter (fun s => s.shotOutcome = some ShotOutcome.twoPointer)).length
  let totalScore :=
    if isFootballFamily m.matchType then goals * 3 + points + twoPointers * 2
    else goals * 3 + points
  let display :=
    if isFootballFamily m.matchType then
      toString goals ++ "-" ++ padStart2 (toString (points + twoPointers * 2))
    else
      toString goals ++ "-" ++ padStart2 (toString points)
  { goals := goals, points := points, twoPointers := twoPointers,
    total := totalScore, display := display }

/-- Per-player statistics entry built by
`StatsCalculator.calculatePlayerStats` (script.js lines 920-932). -/
structure PlayerStatEntry where
  id : String
  name : String
  jerseyNumber : Nat
  goals : Nat
  points : Nat
  twoPointers : Nat
  totalScore : Nat
  shots : Nat
  fouls : Nat
  cards : Nat
  events : List Event
deriving DecidableEq, Repr

/-- The zeroed entry `calculatePlayerStats` creates for each roster
player. -/
def initPlayerEntry (p : Player) : PlayerStatEntry :=
  { id := p.id, name := p.name, jerseyNumber := p.jerseyNumber,
    goals := 0, points := 0, twoPointers := 0, totalScore := 0,
    shots := 0, fouls := 0, cards := 0, events := [] }

/-- The event-processing body of `calculatePlayerStats` (script.js lines
943-962), applied to the entry found in the map.  Note that it switches on
`event.outcome`, not `event.shotOutcome`. -/
def applyStatEvent (event : Event) (p : PlayerStatEntry) : PlayerStatEntry :=
  let p1 := { p with events := p.events ++ [event] }
  if event.type = EventType.shot then
    let p2 := { p1 with shots := p1.shots + 1 }
    if event.outcome = some ShotOutcome.goal then
      { p2 with goals := p2.goals + 1, totalScore := p2.totalScore + 3 }
    else if event.outcome = some ShotOutcome.point then
      { p2 with points := p2.points + 1, totalScore := p2.totalScore + 1 }
    else if event.outcome = some ShotOutcome.twoPointer then
      { p2 with twoPointers := p2.twoPointers + 1, totalScore := p2.totalScore + 2 }
    else p2
  else if event.type = EventType.foulConceded then { p1 with fouls := p1.fouls + 1 }
  else if event.type = EventType.card then { p1 with cards := p1.cards + 1 }
  else p1

/-- The `StatsCalculator.calculatePlayerStats` (script.js lines 916-963):
initialize one zeroed entry per roster player (an insertion-ordered map,
modelled as a list in roster order), fold the team events — skipping any
event whose `playerId` key is falsy or absent from the map — and return
the entries with nonzero activity.  The fold looks events up by
`event.playerId`, the key no event constructor ever sets. -/
def calculatePlayerStats (teamEvents : List Event) (players : List Player) :
    List PlayerStatEntry :=
  let initial := players.map initPlayerEntry
  let folded := teamEvents.foldl (fun entries event =>
    match event.playerId with
    | none => entries
    | some pid =>
      if entries.any (fun en => en.id = pid) then
        entries.map (fun en => if en.id = pid then applyStatEvent event en else en)
      else entries) initial
  folded.filter (fun p => 0 < p.shots ∨ 0 < p.fouls ∨ 0 < p.cards)

/-- Projection returned for each top scorer
(`StatsCalculator.getTopScorers`, script.js lines 970-977). -/
structure TopScorer where
  name : String
  jerseyNumber : Nat
  goals : Nat
  points : Nat
  twoPointers : Nat
  totalScore : Nat
deriving DecidableEq, Repr

/-- The `StatsCalculator.getTopScorers` (script.js lines 966-979): keep
entries with positive `totalScore`, stable-sort descending by
`totalScore`, truncate to 5 and project. -/
def getTopScorers (playerStats : List PlayerStatEntry) : List TopScorer :=
  let sorted := (playerStats.filter (fun p => 0 < p.totalScore)).mergeSort
    (fun a b => b.totalScore ≤ a.totalScore)
  (sorted.take 5).map (fun p =>
    { name := p.name, jerseyNumber := p.jerseyNumber, goals := p.goals,
      points := p.points, twoPointers := p.twoPointers,
      totalScore := p.totalScore })

/-- The `generatePlayers` (script.js lines 2517-2529): 30 players numbered 1
to 30, named `No.<n>`, empty position.  The generated random ids are
supplied by `freshIds`. -/
def generatePlayers (freshIds : Nat → String) : List Player :=
  (List.range 30).map (fun i =>
    { id := freshIds i, name := "No." ++ toString (i + 1),
      jerseyNumber := i + 1, position := "" })

/-- The match-creation branch of `handleMatchFormSubmit` (script.js lines
2855-2930): team names are required; the half length defaults to 30 and
the extra-time half length to 10 (the form exposes no duration inputs);
the new match starts paused in `NOT_STARTED` with zero elapsed time, no
events and a `null` clock anchor. -/
def handleMatchFormSubmitCreate (competition dateTime venue referee : String)
    (matchType : MatchType) (team1Name team2Name : String)
    (matchId team1Id team2Id : String) (t1Ids t2Ids : Nat → String) :
    Option Match :=
  if team1Name = "" ∨ team2Name = "" then none
  else some
    { id := matchId, competition := competition, dateTime := dateTime,
      venue := venue, referee := referee, matchType := matchType,
      halfLength := 30, extraHalfLength := some 10,
      team1 := { id := team1Id, name := team1Name, players := generatePlayers t1Ids },
      team2 := { id := team2Id, name := team2Name, players := generatePlayers t2Ids },
      events := [], currentPeriod := MatchPeriod.notStarted,
      elapsedTime := 0, isPaused := true, periodStartTimestamp := none }

/-! ## Spec-side characterizations and sample data -/

/-- Whether an event is a shot by team `tid` with outcome `o` (the event
class the spec's score fold counts). -/
def isTeamShotWith (tid : String) (o : ShotOutcome) (e : Event) : Bool :=
  e.type = EventType.shot ∧ e.teamId = some tid ∧ e.shotOutcome = some o

/-- The running team score as the spec describes it: a fold of the full
event log where each of the team's shot events contributes by outcome
(`goal` → goals+1, `point` → points+1, `twoPointer` → points+2, all other
outcomes and event types nothing) and `total = goals*3 + points`.  Stated
via counts, to be compared with `computeTeamScore`. -/
def specRunningScore (m : Match) (k : TeamKey) : Score :=
  let tid := (m.team k).id
  let goals := m.events.countP (isTeamShotWith tid ShotOutcome.goal)
  let points := m.events.countP (isTeamShotWith tid ShotOutcome.point)
    + 2 * m.events.countP (isTeamShotWith tid ShotOutcome.twoPointer)
  { goals := goals, points := points, total := goals * 3 + points }

/-- One step forward in the fixed period order
`NOT_STARTED → FIRST_HALF → HALF_TIME → SECOND_HALF → FULL_TIME →
EXTRA_FIRST → EXTRA_HALF → EXTRA_SECOND → MATCH_OVER`. -/
def periodSucc : MatchPeriod → MatchPeriod
  | .notStarted => .firstHalf
  | .firstHalf => .halfTime
  | .halfTime => .secondHalf
  | .secondHalf => .fullTime
  | .fullTime => .extraFirst
  | .extraFirst => .extraHalf
  | .extraHalf => .extraSecond
  | .extraSecond => .matchOver
  | .matchOver => .matchOver

/-- The three extra-time periods. -/
def isExtraPeriod (p : MatchPeriod) : Bool :=
  p = MatchPeriod.extraFirst ∨ p = MatchPeriod.extraHalf ∨ p = MatchPeriod.extraSecond

/-! ## C1: the running team score is exactly the fold of the event log -/

theorem scoreStep_foldl (tid : String) (l : List Event) (g p : Nat) :
    l.foldl (scoreStep tid) (g, p) =
      (g + l.countP (isTeamShotWith tid ShotOutcome.goal),
       p + l.countP (isTeamShotWith tid ShotOutcome.point)
         + 2 * l.countP (isTeamShotWith tid ShotOutcome.twoPointer)) := by
  induction l generalizing g p with
  | nil => simp
  | cons e t ih =>
    simp only [List.foldl_cons, List.countP_cons, scoreStep, isTeamShotWith]
    by_cases h1 : e.type = EventType.shot ∧ e.teamId = some tid
    · by_cases hg : e.shotOutcome = some ShotOutcome.goal
      · simp [h1, h1.1, h1.2, hg, ih]
        omega
      · by_cases hp : e.shotOutcome = some ShotOutcome.point
        · simp [h1, h1.1, h1.2, hg, hp, ih]
          omega
        · by_cases h2 : e.shotOutcome = some ShotOutcome.twoPointer
          · simp [h1, h1.1, h1.2, hg, hp, h2, ih]
            omega
          · simp [h1, h1.1, h1.2, hg, hp, h2, ih]
    · have hne : ¬ (e.type = EventType.shot ∧ e.teamId = some tid ∧
          e.shotOutcome = some ShotOutcome.goal) := by tauto
      have hne2 : ¬ (e.type = EventType.shot ∧ e.teamId = some tid ∧
          e.shotOutcome = some ShotOutcome.point) := by tauto
      have hne3 : ¬ (e.type = EventType.shot ∧ e.teamId = some tid ∧
          e.shotOutcome = some ShotOutcome.twoPointer) := by tauto
      simp [h1, hne, hne2, hne3, ih]

/-- C1: for every match and team key, `computeTeamScore` equals the fold
of the full event log described by the spec — each of that team's shot
events contributes goals+1 / points+1 / points+2 according to its
`goal` / `point` / `twoPointer` outcome, every other outcome and event
type contributes nothing, and `total = goals*3 + points`.  The statement
quantifies over every match value, hence over the state after any
sequence of appends, edits and deletes; the score is recomputed from the
log on each call and stored nowhere else. -/
theorem computeTeamScore_is_log_fold (m : Match) (k : TeamKey) :
    computeTeamScore m k = specRunningScore m k := by
  unfold computeTeamScore specRunningScore
  rw [scoreStep_foldl]
  simp

/-! ## C2: ending a period advances exactly one step, skipping extra time
only when it is not configured -/

theorem getNextPeriod_eq_succ_or_skip (p : MatchPeriod) (e : Option Int) :
    getNextPeriod p e =
      (if isExtraPeriod (periodSucc p) ∧ noExtraTime e then MatchPeriod.matchOver
       else periodSucc p) := by
  unfold getNextPeriod
  generalize noExtraTime e = b
  cases b <;> cases p <;> decide

theorem endPeriod_currentPeriod (m : Match) (now : Int) :
    (endPeriod m now).currentPeriod = getNextPeriod m.currentPeriod m.extraHalfLength := by
  unfold endPeriod
  dsimp only
  split_ifs <;> rfl

/-- C2: from every non-terminal period, `endPeriod` advances
`currentPeriod` by exactly one step of the fixed order — never backward
and never skipping a non-extra period — except that a step into one of the
three extra-time periods resolves directly to `MATCH_OVER` when the match
has no positive `extraHalfLength`; in particular, ending `FULL_TIME`
without extra time configured yields `MATCH_OVER`, never `EXTRA_FIRST`. -/
theorem endPeriod_advances_one_step (m : Match) (now : Int)
    (h : m.currentPeriod ≠ MatchPeriod.matchOver) :
    (endPeriod m now).currentPeriod =
      (if isExtraPeriod (periodSucc m.currentPeriod) ∧ noExtraTime m.extraHalfLength
       then MatchPeriod.matchOver else periodSucc m.currentPeriod)
    ∧ periodIndex m.currentPeriod < periodIndex (endPeriod m now).currentPeriod := by
  rw [endPeriod_currentPeriod, getNextPeriod_eq_succ_or_skip]
  refine ⟨rfl, ?_⟩
  by_cases hSkip : isExtraPeriod (periodSucc m.currentPeriod) ∧ noExtraTime m.extraHalfLength
  · simp only [if_pos hSkip]
    cases hp : m.currentPeriod <;> simp_all [periodIndex]
  · simp only [if_neg hSkip]
    cases hp : m.currentPeriod <;> simp_all [periodIndex, periodSucc]

/-- Sample match used to instantiate hypotheses: full time, no extra-time
half length configured. -/
def sampleFullTimeMatch : Match :=
  { id := "m1", competition := "League", dateTime := "", venue := "",
    referee := "", matchType := MatchType.football, halfLength := 30,
    extraHalfLength := none,
    team1 := { id := "t1", name := "Home", players := [] },
    team2 := { id := "t2", name := "Away", players := [] },
    events := [], currentPeriod := MatchPeriod.fullTime, elapsedTime := 1800,
    isPaused := true, periodStartTimestamp := none }

theorem endPeriod_advances_one_step_witness :
    sampleFullTimeMatch.currentPeriod ≠ MatchPeriod.matchOver ∧
    ((endPeriod sampleFullTimeMatch 0).currentPeriod =
      (if isExtraPeriod (periodSucc sampleFullTimeMatch.currentPeriod) ∧
          noExtraTime sampleFullTimeMatch.extraHalfLength
       then MatchPeriod.matchOver else periodSucc sampleFullTimeMatch.currentPeriod)
    ∧ periodIndex sampleFullTimeMatch.currentPeriod <
        periodIndex (endPeriod sampleFullTimeMatch 0).currentPeriod) :=
  ⟨by decide, endPeriod_advances_one_step sampleFullTimeMatch 0 (by decide)⟩

/-! ## C8: a period transition resets `elapsedTime` to 0 except into
`MATCH_OVER`, which freezes the finalized value -/

/-- C8: after `endPeriod`, `elapsedTime` is 0 whenever the new period is
not `MATCH_OVER`, and equals the value finalized from the clock at the
moment of ending whenever the new period is `MATCH_OVER`. -/
theorem endPeriod_elapsedTime_spec (m : Match) (now : Int) :
    (endPeriod m now).elapsedTime =
      (if (endPeriod m now).currentPeriod = MatchPeriod.matchOver
       then finalizeElapsed m now else 0) := by
  rw [endPeriod_currentPeriod]
  unfold endPeriod
  dsimp only
  split_ifs <;> simp_all

/-! ## C10: form-created matches always have halfLength 30 and
extraHalfLength 10, so the extra-time skip never fires for them -/

/-- C10: every match created through the match form has `halfLength = 30`
and `extraHalfLength = 10`; consequently extra time is configured, the
extra-time-skip branch of `getNextPeriod` is never taken for such a match
(every step is the plain successor), and ending `FULL_TIME` enters
`EXTRA_FIRST` rather than `MATCH_OVER`. -/
theorem createdMatch_always_has_extra_time
    (competition dateTime venue referee : String) (mt : MatchType)
    (n1 n2 mId tid1 tid2 : String) (f1 f2 : Nat → String) (m : Match)
    (h : handleMatchFormSubmitCreate competition dateTime venue referee mt
        n1 n2 mId tid1 tid2 f1 f2 = some m) :
    m.halfLength = 30 ∧ m.extraHalfLength = some 10 ∧
    getNextPeriod MatchPeriod.fullTime m.extraHalfLength = MatchPeriod.extraFirst ∧
    (∀ p : MatchPeriod, getNextPeriod p m.extraHalfLength = periodSucc p) := by
  unfold handleMatchFormSubmitCreate at h
  split_ifs at h
  have hm : m = _ := (Option.some_injective _ h.symm)
  subst hm
  refine ⟨rfl, rfl, ?_, ?_⟩
  · show getNextPeriod MatchPeriod.fullTime (some 10) = MatchPeriod.extraFirst
    decide
  · intro p
    show getNextPeriod p (some 10) = periodSucc p
    rw [getNextPeriod_eq_succ_or_skip]
    cases p <;> decide

/-- The match the form creates from sample inputs (used to instantiate the
creation hypothesis). -/
def sampleCreatedMatch : Match :=
  (handleMatchFormSubmitCreate "Cup" "2025-01-01" "Park" "Ref"
    MatchType.football "Home" "Away" "m0" "t1" "t2"
    (fun n => "a" ++ toString n) (fun n => "b" ++ toString n)).getD
    sampleFullTimeMatch

theorem createdMatch_always_has_extra_time_witness :
    handleMatchFormSubmitCreate "Cup" "2025-01-01" "Park" "Ref"
      MatchType.football "Home" "Away" "m0" "t1" "t2"
      (fun n => "a" ++ toString n) (fun n => "b" ++ toString n) =
      some sampleCreatedMatch ∧
    (sampleCreatedMatch.halfLength = 30 ∧
     sampleCreatedMatch.extraHalfLength = some 10 ∧
     getNextPeriod MatchPeriod.fullTime sampleCreatedMatch.extraHalfLength =
       MatchPeriod.extraFirst ∧
     (∀ p : MatchPeriod,
        getNextPeriod p sampleCreatedMatch.extraHalfLength = periodSucc p)) :=
  ⟨rfl, createdMatch_always_has_extra_time "Cup" "2025-01-01" "Park" "Ref"
    MatchType.football "Home" "Away" "m0" "t1" "t2"
    (fun n => "a" ++ toString n) (fun n => "b" ++ toString n)
    sampleCreatedMatch rfl⟩

/-! ## C9: pause/resume never loses or double-counts time -/

/-- C9: pausing sets `elapsedTime = floor((now - periodStartTimestamp)/1000)`
and resuming re-anchors `periodStartTimestamp = now - elapsedTime*1000`, so
paused wall-clock time is never counted: starting a period on a freshly
created match at `t0`, pausing at `t0 + 5000` ms yields `elapsedTime = 5`;
resuming at any later instant `t2` and pausing again 3000 ms after that
yields `elapsedTime = 8`. -/
theorem clock_pause_resume_integrity (m : Match) (now t0 t2 : Int) :
    (pauseMatch m now).elapsedTime = (now - m.periodStartTimestamp.getD 0).fdiv 1000
    ∧ (resumeMatch m now).periodStartTimestamp = some (now - m.elapsedTime * 1000)
    ∧ (pauseMatch (startMatch sampleCreatedMatch t0) (t0 + 5000)).elapsedTime = 5
    ∧ (pauseMatch
        (resumeMatch (pauseMatch (startMatch sampleCreatedMatch t0) (t0 + 5000)) t2)
        (t2 + 3000)).elapsedTime = 8 := by
  have hstart : (startMatch sampleCreatedMatch t0).periodStartTimestamp =
      some (t0 - 0 * 1000) := rfl
  have h5 : (pauseMatch (startMatch sampleCreatedMatch t0) (t0 + 5000)).elapsedTime = 5 := by
    show (t0 + 5000 -
      ((startMatch sampleCreatedMatch t0).periodStartTimestamp).getD 0).fdiv 1000 = 5
    rw [hstart]
    show (t0 + 5000 - (t0 - 0 * 1000)).fdiv 1000 = 5
    have harg : t0 + 5000 - (t0 - 0 * 1000) = 5000 := by ring
    rw [harg]
    decide
  refine ⟨rfl, rfl, h5, ?_⟩
  show (t2 + 3000 -
      ((resumeMatch (pauseMatch (startMatch sampleCreatedMatch t0) (t0 + 5000)) t2).periodStartTimestamp).getD 0).fdiv
      1000 = 8
  have hts : (resumeMatch (pauseMatch (startMatch sampleCreatedMatch t0) (t0 + 5000))
      t2).periodStartTimestamp = some (t2 - 5 * 1000) := by
    show some (t2 - (pauseMatch (startMatch sampleCreatedMatch t0) (t0 + 5000)).elapsedTime * 1000) =
      some (t2 - 5 * 1000)
    rw [h5]
  rw [hts]
  show (t2 + 3000 - (t2 - 5 * 1000)).fdiv 1000 = 8
  have harg2 : t2 + 3000 - (t2 - 5 * 1000) = 8000 := by ring
  rw [harg2]
  decide

/-! ## C3: event creation is a silent no-op outside playing periods -/

/-- C3: when `currentPeriod` is not one of the four playing periods, every
event-creation operation — the quick shot, the generic add-event form, and
the shot / foul / kickout / substitution / note modal recording flows —
returns the match completely unchanged (events list, length, derived
scores and every other field). -/
theorem eventCreation_noop_outside_playing_period (m : Match)
    (h : isPlayingPeriod m.currentPeriod = false)
    (tk : TeamKey) (outcome : ShotOutcome) (st : ShotType)
    (pid pid2 : Option String) (note : Option String) (noteStr : String)
    (form : AddEventForm) (ft : FoulOutcome) (ct : Option CardType)
    (kw : Bool) (fid : String) :
    quickAddShot m tk outcome fid = m
    ∧ addEvent m form fid = m
    ∧ scoreModalFlow m tk outcome st pid note fid = m
    ∧ foulModalFlow m tk ft ct pid note fid = m
    ∧ kickoutModalFlow m tk kw pid note fid = m
    ∧ substitutionModalFlow m tk pid pid2 note fid = m
    ∧ noteModalFlow m tk noteStr fid = m := by
  refine ⟨?_, ?_, ?_, ?_, ?_, ?_, ?_⟩
  · simp [quickAddShot, h]
  · simp [addEvent, h]
  · simp [scoreModalFlow, showScoreModal, saveScoreEvent, h]
  · simp [foulModalFlow, showFoulModal, saveFoulEvent, h]
  · simp [kickoutModalFlow, showKickoutModal, saveKickoutEvent, h]
  · simp [substitutionModalFlow, showSubstitutionModal, saveSubstitutionEvent, h]
  · simp [noteModalFlow, showEventTypeModal, h]

/-- A first-half point recorded before half time, used in sample data. -/
def sampleFirstHalfPoint : Event :=
  { id := "e1", type := EventType.shot, period := MatchPeriod.firstHalf,
    timeElapsed := 30, teamId := some "t1", player1Id := none,
    player2Id := none, shotOutcome := some ShotOutcome.point,
    shotType := some ShotType.fromPlay, foulOutcome := none,
    cardType := none, wonKickout := none, noteText := none }

/-- Sample match sitting at half time with one earlier event, used to
instantiate the no-op theorem. -/
def sampleHalfTimeMatch : Match :=
  { sampleFullTimeMatch with
    currentPeriod := MatchPeriod.halfTime,
    events := [sampleFirstHalfPoint] }

/-- Sample generic add-event form input. -/
def sampleForm : AddEventForm :=
  { eventType := EventType.shot, teamId := "t1", playerId := none,
    shotType := some ShotType.free, shotOutcome := some ShotOutcome.goal,
    cardType := none, foulOutcome := none, kickoutWon := true,
    player1 := "", player2 := "", noteText := "hello" }

theorem eventCreation_noop_witness :
    isPlayingPeriod sampleHalfTimeMatch.currentPeriod = false ∧
    (quickAddShot sampleHalfTimeMatch TeamKey.team1 ShotOutcome.goal "e2" = sampleHalfTimeMatch
    ∧ addEvent sampleHalfTimeMatch sampleForm "e2" = sampleHalfTimeMatch
    ∧ scoreModalFlow sampleHalfTimeMatch TeamKey.team1 ShotOutcome.goal
        ShotType.free (some "p1") (some "n") "e2" = sampleHalfTimeMatch
    ∧ foulModalFlow sampleHalfTimeMatch TeamKey.team1 FoulOutcome.free
        (some CardType.yellow) (some "p1") (some "n") "e2" = sampleHalfTimeMatch
    ∧ kickoutModalFlow sampleHalfTimeMatch TeamKey.team1 true (some "p1")
        (some "n") "e2" = sampleHalfTimeMatch
    ∧ substitutionModalFlow sampleHalfTimeMatch TeamKey.team1 (some "p1")
        (some "p2") (some "n") "e2" = sampleHalfTimeMatch
    ∧ noteModalFlow sampleHalfTimeMatch TeamKey.team1 "note" "e2" = sampleHalfTimeMatch) :=
  ⟨rfl, eventCreation_noop_outside_playing_period sampleHalfTimeMatch rfl
    TeamKey.team1 ShotOutcome.goal ShotType.free (some "p1") (some "p2")
    (some "n") "note" sampleForm FoulOutcome.free (some CardType.yellow)
    true "e2"⟩

/-! ## C7: edits change only payload fields of the targeted event -/

/-- Relation between an event before and after an edit keyed on `eid`:
the identity and creation-time stamp fields are unchanged, and any event
other than the targeted one is untouched entirely. -/
def editPreservesIdentity (eid : String) (e eNew : Event) : Prop :=
  eNew.id = e.id ∧ eNew.type = e.type ∧ eNew.period = e.period ∧
  eNew.timeElapsed = e.timeElapsed ∧ (e.id ≠ eid → eNew = e)

theorem editPreservesIdentity_refl (eid : String) (l : List Event) :
    List.Forall₂ (editPreservesIdentity eid) l l := by
  induction l with
  | nil => exact List.Forall₂.nil
  | cons e t ih => exact List.Forall₂.cons ⟨rfl, rfl, rfl, rfl, fun _ => rfl⟩ ih

theorem updateFirstEvent_preserves_identity (l : List Event) (eid : String)
    (g : Event → Event)
    (hg : ∀ e, (g e).id = e.id ∧ (g e).type = e.type ∧ (g e).period = e.period ∧
      (g e).timeElapsed = e.timeElapsed) :
    List.Forall₂ (editPreservesIdentity eid) l (updateFirstEvent l eid g) := by
  induction l with
  | nil => exact List.Forall₂.nil
  | cons e t ih =>
    unfold updateFirstEvent
    by_cases he : e.id = eid
    · rw [if_pos he]
      refine List.Forall₂.cons ?_ (editPreservesIdentity_refl eid t)
      exact ⟨(hg e).1, (hg e).2.1, (hg e).2.2.1, (hg e).2.2.2,
        fun hne => absurd he hne⟩
    · rw [if_neg he]
      exact List.Forall₂.cons ⟨rfl, rfl, rfl, rfl, fun _ => rfl⟩ ih

theorem applyEditForm_frame (f : EditForm) (e : Event) :
    (applyEditForm f e).id = e.id ∧ (applyEditForm f e).type = e.type ∧
    (applyEditForm f e).period = e.period ∧
    (applyEditForm f e).timeElapsed = e.timeElapsed := by
  unfold applyEditForm
  split_ifs <;> exact ⟨rfl, rfl, rfl, rfl⟩

/-- C7: both edit paths — the generic `saveEditedEvent` and the score
modal's edit save — leave every event's `id`, `type`, `period` and
`timeElapsed` unchanged, modify only payload fields of the targeted
event, and leave every other event in the log untouched (the event lists
are related pointwise, so the log's length and order are preserved
too). -/
theorem edits_preserve_event_identity (m : Match) (eid : String)
    (f : EditForm) (d : ScoreModalData) (note : Option String) (fid : String)
    (hEdit : d.isEdit = true) (hEid : d.eventId = some eid) :
    List.Forall₂ (editPreservesIdentity eid) m.events
      (saveEditedEvent m (some eid) f).events
    ∧ List.Forall₂ (editPreservesIdentity eid) m.events
      (saveScoreEvent m (some d) note fid).events := by
  constructor
  · unfold saveEditedEvent
    dsimp only
    by_cases hfind : (m.events.find? (fun e => e.id = eid)).isSome
    · rw [if_pos hfind]
      exact updateFirstEvent_preserves_identity m.events eid (applyEditForm f)
        (applyEditForm_frame f)
    · rw [if_neg hfind]
      exact editPreservesIdentity_refl eid m.events
  · unfold saveScoreEvent
    dsimp only
    have hcond : d.isEdit ∧ d.eventId.isSome := ⟨hEdit, by rw [hEid]; rfl⟩
    rw [if_pos hcond]
    have hgetd : d.eventId.getD "" = eid := by rw [hEid]; rfl
    rw [hgetd]
    exact updateFirstEvent_preserves_identity m.events eid _
      (fun e => ⟨rfl, rfl, rfl, rfl⟩)

/-- Score modal data in edit mode targeting the sample event. -/
def sampleEditData : ScoreModalData :=
  { teamKey := TeamKey.team2, outcome := ShotOutcome.goal,
    selectedShotType := ShotType.penalty, selectedPlayerId := some "p9",
    isEdit := true, eventId := some "e1" }

/-- Sample edit-form input. -/
def sampleEditForm : EditForm :=
  { teamId := "t2", playerId := some "p9", shotType := ShotType.penalty,
    shotOutcome := ShotOutcome.goal, cardType := CardType.red,
    foulOutcome := FoulOutcome.penalty, kickoutWonValue := "won",
    playerOut := "p3", playerIn := "p4", noteText := " edited " }

theorem edits_preserve_event_identity_witness :
    sampleEditData.isEdit = true ∧ sampleEditData.eventId = some "e1" ∧
    (List.Forall₂ (editPreservesIdentity "e1") sampleHalfTimeMatch.events
      (saveEditedEvent sampleHalfTimeMatch (some "e1") sampleEditForm).events
    ∧ List.Forall₂ (editPreservesIdentity "e1") sampleHalfTimeMatch.events
      (saveScoreEvent sampleHalfTimeMatch (some sampleEditData)
        (some "note") "e9").events) :=
  ⟨rfl, rfl, edits_preserve_event_identity sampleHalfTimeMatch "e1"
    sampleEditForm sampleEditData (some "note") "e9" rfl rfl⟩

/-! ## C5: the canonical (statistics) team total gates the two-pointer
multiplier on the football-family match types -/

theorem filter_chain_count (l : List Event) (tid : String) (o : ShotOutcome) :
    (((l.filter (fun e => e.teamId = some tid)).filter
        (fun e => e.type = EventType.shot)).filter
        (fun s => s.shotOutcome = some o)).length
      = l.countP (isTeamShotWith tid o) := by
  rw [List.filter_filter, List.filter_filter, ← List.countP_eq_length_filter]
  apply List.countP_congr
  intro e _
  by_cases h1 : e.type = EventType.shot <;>
    by_cases h2 : e.teamId = some tid <;>
      by_cases h3 : e.shotOutcome = some o <;>
        simp [isTeamShotWith, h1, h2, h3]

/-- Ladies football match whose only event is a single two-pointer shot by
team 1, as created by the score modal during the first half. -/
def sampleLadiesMatch : Match :=
  scoreModalFlow
    { sampleFullTimeMatch with
      matchType := MatchType.ladiesFootball,
      currentPeriod := MatchPeriod.firstHalf,
      events := [] }
    TeamKey.team1 ShotOutcome.twoPointer ShotType.fromPlay none none "e1"

/-- C5: the canonical team total computed by `calculateTeamStats` is
`goals*3 + points + twoPointers*2` when the match type is football or
ladies football and `goals*3 + points` otherwise, where the three buckets
count that team's shot events with the corresponding outcome (`points`
excludes two-pointers); in particular a ladies-football match with a
single two-pointer shot has canonical total 2. -/
theorem canonical_total_gated_by_match_type (m : Match) (k : TeamKey) :
    ((calculateTeamStatsScore m k).total =
      (calculateTeamStatsScore m k).goals * 3 + (calculateTeamStatsScore m k).points
      + (if m.matchType = MatchType.football ∨ m.matchType = MatchType.ladiesFootball
         then (calculateTeamStatsScore m k).twoPointers * 2 else 0))
    ∧ (calculateTeamStatsScore m k).goals =
        m.events.countP (isTeamShotWith (m.team k).id ShotOutcome.goal)
    ∧ (calculateTeamStatsScore m k).points =
        m.events.countP (isTeamShotWith (m.team k).id ShotOutcome.point)
    ∧ (calculateTeamStatsScore m k).twoPointers =
        m.events.countP (isTeamShotWith (m.team k).id ShotOutcome.twoPointer)
    ∧ (calculateTeamStatsScore sampleLadiesMatch TeamKey.team1).total = 2 := by
  refine ⟨?_, ?_, ?_, ?_, by decide⟩
  · simp only [calculateTeamStatsScore]
    by_cases hf : m.matchType = MatchType.football ∨ m.matchType = MatchType.ladiesFootball
    · simp [isFootballFamily, hf]
    · simp [isFootballFamily, hf]
  · exact filter_chain_count m.events (m.team k).id ShotOutcome.goal
  · exact filter_chain_count m.events (m.team k).id ShotOutcome.point
  · exact filter_chain_count m.events (m.team k).id ShotOutcome.twoPointer

/-! ## C6: score display formatting -/

/-- C6 counterexample: the claim says every score-display path folds
two-pointers into the displayed point count as `points + twoPointers*2`,
so a football-family bucket of 0 goals, 0 points, 1 two-pointer should
display as `0-02`; the stats-card formatter `formatScoreDisplay` instead
adds each two-pointer only once and produces `0-01`. -/
theorem formatScoreDisplay_counterexample :
    formatScoreDisplay { goals := 0, points := 0, twoPointers := 1 } true = "0-01"
    ∧ formatScoreDisplay { goals := 0, points := 0, twoPointers := 1 } true ≠ "0-02" := by
  constructor
  · rfl
  · decide

/-- C6 (amended): both formatters zero-pad the displayed point count to
two digits after the goals and a dash, but they fold two-pointers in
differently: `formatScoreDisplay` (stats cards) displays
`points + twoPointers` for football-family types, while the
`calculateTeamStats` display string shows `points + twoPointers*2`;
non-football types display the plain point count in both. -/
theorem score_display_formats (sb : ScoreBuckets) (m : Match) (k : TeamKey) :
    formatScoreDisplay sb true =
      toString sb.goals ++ "-" ++ padStart2 (toString (sb.points + sb.twoPointers))
    ∧ formatScoreDisplay sb false =
      toString sb.goals ++ "-" ++ padStart2 (toString sb.points)
    ∧ (calculateTeamStatsScore m k).display =
      (if isFootballFamily m.matchType then
        toString (calculateTeamStatsScore m k).goals ++ "-" ++
          padStart2 (toString ((calculateTeamStatsScore m k).points +
            (calculateTeamStatsScore m k).twoPointers * 2))
      else
        toString (calculateTeamStatsScore m k).goals ++ "-" ++
          padStart2 (toString (calculateTeamStatsScore m k).points)) := by
  refine ⟨rfl, rfl, ?_⟩
  simp only [calculateTeamStatsScore]

/-! ## C4: per-player statistics never credit any event (code bug) -/

/-- Live football match (first half) with the roster player `p1` on
team 1 and no events yet. -/
def sampleLiveMatch : Match :=
  { sampleFullTimeMatch with
    currentPeriod := MatchPeriod.firstHalf,
    team1 := { id := "t1", name := "Home",
               players := [{ id := "p1", name := "Alice", jerseyNumber := 10,
                             position := "" }] },
    events := [] }

/-- The live match after the score modal records a goal by player `p1`
for team 1 — the program's own creation path for a player-attributed shot
event. -/
def sampleScoredMatch : Match :=
  scoreModalFlow sampleLiveMatch TeamKey.team1 ShotOutcome.goal
    ShotType.fromPlay (some "p1") none "e1"

/-- C4 (code bug evidence): after the program itself records a goal shot
attributed to roster player `p1` (`player1Id = "p1"`,
`shotOutcome = goal`), `calculatePlayerStats` — which looks events up by
the never-assigned `playerId`/`outcome` keys — returns no entry at all
for the scoring player (every roster entry still has zero activity and is
filtered out), and the top-scorers list is empty; the claim instead
requires an entry for `p1` with `shots = 1`, `goals = 1`,
`totalScore = 3` and a top-scorers list containing `p1`. -/
theorem calculatePlayerStats_ignores_player1Id :
    (sampleScoredMatch.events.map (fun e => (e.player1Id, e.shotOutcome, e.playerId, e.outcome)))
      = [(some "p1", some ShotOutcome.goal, none, none)]
    ∧ calculatePlayerStats
        (sampleScoredMatch.events.filter (fun e => e.teamId = some "t1"))
        sampleScoredMatch.team1.players = []
    ∧ getTopScorers (calculatePlayerStats
        (sampleScoredMatch.events.filter (fun e => e.teamId = some "t1"))
        sampleScoredMatch.team1.players) = [] := by
  have h2 : calculatePlayerStats
      (sampleScoredMatch.events.filter (fun e => e.teamId = some "t1"))
      sampleScoredMatch.team1.players = [] := by decide
  refine ⟨by decide, h2, ?_⟩
  rw [h2]
  simp [getTopScorers]

end MatchTracker
